import Mathlib

/-!
Formal model of the Project-Znak order/payment lifecycle.

The definitions below are a shallow embedding of the Go sources and the SQL
schema of the repository:

* SHA-1 (the `crypto/sha1` hashing used for Robokassa signatures) over UTF-8
  bytes, with the lowercase hex rendering produced by the `%x` format verb;
* the users/orders/order_items/payments tables (SQLBase/DATABASE.sql) as lists
  of rows, together with the `update_order_status_on_payment` trigger;
* the HTTP handlers `robokassaCallbackHandler`, `createPaymentHandler` (its
  signature/URL computation), `registerUserHandler`, `kizHandler`,
  `authMiddleware` from the main server file, and `handleKIZRequest`,
  `handlePayment`, `prepareOrder`, `createOrderTx`, `getUserID`,
  `generatePaymentURL` from the companion server file;
* the `models` package validation functions `Order.Validate`,
  `OrderItem.Validate` and `Order.CalculateTotal`.

Modelling conventions: monetary values (`float64` in Go, `DECIMAL(10,2)` in
SQL) are modelled as rationals, which is exact for every amount appearing in
the repository and its spec; `SERIAL` primary keys are modelled as
max-plus-one allocation; the random API key, the wall clock and the outcome
of outbound HTTP calls are passed as parameters. Deterministic statement
failures are modelled where the sources guarantee them: a SQL statement
assigning a column absent from the governing schema errors (the callback
handler's UPDATE names `robokassa_id`, absent from the trigger-bearing
DATABASE.sql schema), and `Scan` of a NULL column into a non-nullable Go
`string` errors (`handlePayment` scans the always-NULL `transaction_id`).
Environmental failures (connectivity, timeouts) are not modelled.
-/

set_option maxRecDepth 1000000

/-! ### SHA-1 (crypto/sha1) over UTF-8 bytes, hex rendering of %x -/

/-- Truncation to a 32-bit word. -/
def w32 (x : Nat) : Nat := x % 4294967296

/-- Rotate a 32-bit word left by `n` bits. -/
def rotl32 (n x : Nat) : Nat := w32 ((x <<< n) ||| (x >>> (32 - n)))

/-- UTF-8 encoding of one code point (Go strings are UTF-8 byte sequences). -/
def utf8Char (c : Char) : List Nat :=
  let n := c.toNat
  if n < 128 then [n]
  else if n < 2048 then [192 + n / 64, 128 + n % 64]
  else if n < 65536 then [224 + n / 4096, 128 + (n / 64) % 64, 128 + n % 64]
  else [240 + n / 262144, 128 + (n / 4096) % 64, 128 + (n / 64) % 64, 128 + n % 64]

/-- UTF-8 bytes of a string. -/
def utf8Encode (s : String) : List Nat :=
  s.data.foldr (fun c acc => utf8Char c ++ acc) []

/-- Big-endian 8-byte rendering of a length in bits. -/
def be8 (n : Nat) : List Nat :=
  [(n >>> 56) % 256, (n >>> 48) % 256, (n >>> 40) % 256, (n >>> 32) % 256,
   (n >>> 24) % 256, (n >>> 16) % 256, (n >>> 8) % 256, n % 256]

/-- Big-endian 4-byte rendering of a 32-bit word. -/
def be4 (n : Nat) : List Nat :=
  [(n >>> 24) % 256, (n >>> 16) % 256, (n >>> 8) % 256, n % 256]

/-- SHA-1 message padding: a 1 bit, zeros to 56 mod 64, then the bit length. -/
def sha1Pad (msg : List Nat) : List Nat :=
  let len := msg.length
  let zeros := (64 + 56 - ((len + 1) % 64)) % 64
  msg ++ [128] ++ List.replicate zeros 0 ++ be8 (8 * len)

/-- Split a byte list into 64-byte blocks (fuel-driven). -/
def chunks64Aux : Nat → List Nat → List (List Nat)
  | 0, _ => []
  | _, [] => []
  | fuel+1, l => l.take 64 :: chunks64Aux fuel (l.drop 64)

/-- Big-endian 32-bit words of a 64-byte block. -/
def toWordsAux : Nat → List Nat → List Nat
  | 0, _ => []
  | fuel+1, a :: b :: c :: d :: rest =>
    (a * 16777216 + b * 65536 + c * 256 + d) :: toWordsAux fuel rest
  | _+1, _ => []

/-- Message-schedule expansion from 16 to 80 words. -/
def sha1ExtendAux : Nat → List Nat → List Nat
  | 0, ws => ws
  | fuel+1, ws =>
    let n := ws.length
    let x := rotl32 1 (((ws.getD (n-3) 0) ^^^ (ws.getD (n-8) 0)) ^^^
                       ((ws.getD (n-14) 0) ^^^ (ws.getD (n-16) 0)))
    sha1ExtendAux fuel (ws ++ [x])

/-- Round function of SHA-1. -/
def sha1F (i b c d : Nat) : Nat :=
  if i < 20 then (b &&& c) ||| ((4294967295 ^^^ b) &&& d)
  else if i < 40 then (b ^^^ c) ^^^ d
  else if i < 60 then ((b &&& c) ||| (b &&& d)) ||| (c &&& d)
  else (b ^^^ c) ^^^ d

/-- Round constants of SHA-1. -/
def sha1K (i : Nat) : Nat :=
  if i < 20 then 1518500249 else if i < 40 then 1859775393
  else if i < 60 then 2400959708 else 3395469782

/-- Compression of one 64-byte block. -/
def sha1Block (st : Nat × Nat × Nat × Nat × Nat) (block : List Nat) :
    Nat × Nat × Nat × Nat × Nat :=
  let ws := sha1ExtendAux 64 (toWordsAux 16 block)
  let r := (List.range 80).foldl (fun (p : Nat × Nat × Nat × Nat × Nat) i =>
    let (a, b, c, d, e) := p
    let t := w32 (rotl32 5 a + sha1F i b c d + e + sha1K i + ws.getD i 0)
    (t, a, rotl32 30 b, c, d)) st
  let (a, b, c, d, e) := r
  let (h0, h1, h2, h3, h4) := st
  (w32 (h0 + a), w32 (h1 + b), w32 (h2 + c), w32 (h3 + d), w32 (h4 + e))

/-- Big-endian digest bytes of a final state. -/
def sha1Digest (st : Nat × Nat × Nat × Nat × Nat) : List Nat :=
  match st with
  | (h0, h1, h2, h3, h4) => be4 h0 ++ be4 h1 ++ be4 h2 ++ be4 h3 ++ be4 h4

/-- SHA-1 of a byte sequence, as 20 digest bytes (mirrors `sha1.Sum`). -/
def sha1Sum (msg : List Nat) : List Nat :=
  let padded := sha1Pad msg
  let blocks := chunks64Aux padded.length padded
  sha1Digest (blocks.foldl sha1Block (1732584193, 4023233417, 2562383102, 271733878, 3285377520))

/-- Lowercase hex digit. -/
def hexDigit (n : Nat) : Char :=
  if n < 10 then Char.ofNat (48 + n) else Char.ofNat (87 + n)

/-- Lowercase hex string of a byte list (the `%x` format verb). -/
def bytesToHex (l : List Nat) : String :=
  String.mk (l.foldr (fun b acc => hexDigit (b / 16) :: hexDigit (b % 16) :: acc) [])

/-- Hex SHA-1 digest of a string: `fmt.Sprintf("%x", sha1.Sum([]byte(s)))`. -/
def sha1Hex (s : String) : String := bytesToHex (sha1Sum (utf8Encode s))

/-! ### Decimal parsing and formatting -/

/-- Accumulating decimal parser over characters. -/
def atoiAux : List Char → Nat → Option Nat
  | [], acc => some acc
  | c :: rest, acc =>
    if 48 ≤ c.toNat ∧ c.toNat ≤ 57 then atoiAux rest (acc * 10 + (c.toNat - 48)) else none

/-- Model of `strconv.Atoi` restricted to the nonnegative identifiers the
handlers feed it (SERIAL primary keys); a sign or any non-digit yields an
error, as in Go. -/
def atoi (s : String) : Option Int :=
  if s.data = [] then none
  else (atoiAux s.data 0).map Int.ofNat

/-- Fractional decimal digits of a rational in [0,1), up to `fuel` digits. -/
def fracDigits : ℚ → Nat → List Char
  | _, 0 => []
  | q, fuel+1 =>
    if q = 0 then []
    else
      let d := (q * 10).floor.toNat
      Char.ofNat (48 + d) :: fracDigits (q * 10 - (d : ℚ)) fuel

/-- Model of the `%g` format verb on the monetary amounts of this repository:
shortest plain decimal rendering without trailing zeros (the scientific
regime of `%g` is never reached by amounts fitting `DECIMAL(10,2)`). -/
def fmtG (q : ℚ) : String :=
  let sgn := if q < 0 then "-" else ""
  let a := if q < 0 then -q else q
  let ip := a.floor.toNat
  let fr := a - (ip : ℚ)
  if fr = 0 then sgn ++ toString ip
  else sgn ++ toString ip ++ "." ++ String.mk (fracDigits fr 17)

/-! ### Database rows (SQLBase/DATABASE.sql) -/

/-- Row of the `users` table (the columns the modelled handlers touch). -/
structure UserRow where
  id : Int
  telegramId : Int
  inn : String
  email : String
  apiKey : String
  lastActive : Nat
deriving DecidableEq

/-- Row of the `orders` table. -/
structure OrderRow where
  id : Int
  userId : Int
  totalAmount : ℚ
  status : String
deriving DecidableEq

/-- Row of the `order_items` table. -/
structure OrderItemRow where
  orderId : Int
  gtin : String
  quantity : Int
  price : ℚ
deriving DecidableEq

/-- Row of the `payments` table; `transaction_id` is nullable with no
default, so it is modelled as an `Option` with SQL NULL as `none`. -/
structure PaymentRow where
  id : Int
  orderId : Int
  amount : ℚ
  status : String
  transactionId : Option String
  completedAt : Option Nat
deriving DecidableEq

/-- Row of the `kiz_requests` table. -/
structure KizRequestRow where
  telegramId : Int
  inn : String
  requestTime : Nat
deriving DecidableEq

/-- Database state: the five tables the modelled handlers read and write. -/
structure DB where
  users : List UserRow
  orders : List OrderRow
  orderItems : List OrderItemRow
  payments : List PaymentRow
  kizRequests : List KizRequestRow
deriving DecidableEq

/-- Robokassa credentials from the configuration (PaymentConfig). -/
structure PaymentConfig where
  robokassaLogin : String
  robokassaPass : String
deriving DecidableEq

/-- Plain HTTP reply (status code and body) as written by `http.Error` or
`w.Write`. -/
structure HttpResp where
  status : Nat
  body : String
deriving DecidableEq

/-! ### Robokassa callback (robokassaCallbackHandler + trigger) -/

/-- Form parameters of the Robokassa callback request. -/
structure CallbackForm where
  invId : String
  outSum : String
  signatureValue : String
  shpTransactionId : String
deriving DecidableEq

/-- WHERE clause of the conditional payment update:
`WHERE id = $3 AND status = 'pending'`. -/
def paymentHit (pid : Int) (p : PaymentRow) : Bool :=
  p.id == pid && p.status == "pending"

/-- SET clause of the payment update:
`SET status = 'completed', completed_at = $1, robokassa_id = $2`. -/
def completePayment (now : Nat) (shp : String) (p : PaymentRow) : PaymentRow :=
  { p with status := "completed", completedAt := some now, transactionId := some shp }

/-- Trigger function `update_order_status_on_payment`: when a payment row
turns `completed`, set the owning order to `paid` if it is still `pending`. -/
def updateOrderStatusOnPayment (orders : List OrderRow) (orderId : Int) : List OrderRow :=
  orders.map (fun o =>
    if o.id == orderId && o.status == "pending" then { o with status := "paid" } else o)

/-- Effect on the database of the conditional `UPDATE payments` statement,
including the AFTER UPDATE trigger which fires once per updated row. -/
def applyPaymentUpdate (db : DB) (pid : Int) (now : Nat) (shp : String) : DB :=
  let updatedOrderIds := (db.payments.filter (paymentHit pid)).map (fun p => p.orderId)
  { db with
    payments := db.payments.map (fun p =>
      if paymentHit pid p then completePayment now shp p else p),
    orders := updatedOrderIds.foldl updateOrderStatusOnPayment db.orders }

/-- Columns of the `payments` table created by SQLBase/DATABASE.sql — the
only schema in the repository that also has an `orders` table, a
`payments.order_id` column and the `update_order_status_on_payment`
trigger. Its column is named `transaction_id`; the
`ALTER TABLE ... RENAME COLUMN IF EXISTS robokassa_id TO transaction_id`
repair attempt at line 79 is not valid PostgreSQL (IF EXISTS applies to the
table, not the column), so no column `robokassa_id` exists either way. -/
def paymentsColumns : List String :=
  ["id", "order_id", "amount", "status", "transaction_id", "currency",
   "created_at", "completed_at"]

/-- Columns assigned by the SET clause of the callback handler's statement
`UPDATE payments SET status = ..., completed_at = $1, robokassa_id = $2`. -/
def callbackUpdateColumns : List String :=
  ["status", "completed_at", "robokassa_id"]

/-- The `robokassaCallbackHandler` endpoint: parameter presence check,
signature verification against the SHA-1 hex digest of
`merchantLogin:OutSum:InvId:password`, `strconv.Atoi` of InvId, then the
conditional payment update. `db.Exec` succeeds — taking the conditional
update, the trigger, and the `OK`+InvId acknowledgement — only if every
column the statement assigns exists in the schema; assigning an undefined
column makes `db.Exec` return an error and the handler answer 500. -/
def robokassaCallbackHandler (rk : PaymentConfig) (db : DB) (form : CallbackForm) (now : Nat) :
    HttpResp × DB :=
  if form.invId = "" ∨ form.outSum = "" ∨ form.signatureValue = "" then
    ({ status := 400, body := "Неверные параметры" }, db)
  else
    let expectedSign := sha1Hex (rk.robokassaLogin ++ ":" ++ form.outSum ++ ":" ++
      form.invId ++ ":" ++ rk.robokassaPass)
    if form.signatureValue ≠ expectedSign then
      ({ status := 403, body := "Неверная подпись" }, db)
    else
      match atoi form.invId with
      | none => ({ status := 400, body := "Неверный ID платежа" }, db)
      | some pid =>
        if callbackUpdateColumns.all paymentsColumns.contains then
          ({ status := 200, body := "OK" ++ form.invId },
           applyPaymentUpdate db pid now form.shpTransactionId)
        else
          ({ status := 500, body := "Ошибка обновления платежа" }, db)

/-! ### Payment link creation (createPaymentHandler, lines building the URL) -/

/-- Signature and redirect URL computed by `createPaymentHandler`:
`signature = sha1(login ":" amount ":" paymentID ":" password)` in hex, and
the Robokassa redirect URL carrying the same formatted amount. -/
def createPaymentLink (rk : PaymentConfig) (amount : ℚ) (paymentID : Int) : String × String :=
  let signature := rk.robokassaLogin ++ ":" ++ fmtG amount ++ ":" ++
    toString paymentID ++ ":" ++ rk.robokassaPass
  let signatureHash := sha1Hex signature
  let redirectURL :=
    "https://auth.robokassa.ru/Merchant/Index.aspx?MerchantLogin=" ++ rk.robokassaLogin ++
    "&OutSum=" ++ fmtG amount ++ "&InvId=" ++ toString paymentID ++
    "&SignatureValue=" ++ signatureHash ++ "&Desc=Оплата услуг&Culture=ru"
  (signatureHash, redirectURL)

/-! ### Order assembly and validation (models package, prepareOrder) -/

/-- Line item of an order (`models.OrderItem`). -/
structure OrderItem where
  gtin : String
  quantity : Int
  price : ℚ
deriving DecidableEq

/-- Order of a user (`models.Order`; the fields the claims touch). -/
structure Order where
  userId : Int
  items : List OrderItem
  totalAmount : ℚ
  status : String
deriving DecidableEq

/-- Requested product with a count (`GTINData`). -/
structure GTINData where
  gtin : String
  count : Int
deriving DecidableEq

/-- The `prepareOrder` function: one line item per requested GTIN at the
placeholder unit price of 100.0, total accumulated as count times unit
price, order status `created`. As in the source, the returned order carries
no items field and no user id yet. -/
def prepareOrder (telegramID : Int) (gtins : List GTINData) : Order × List OrderItem :=
  let unitPrice : ℚ := 100
  let items := gtins.map (fun g => { gtin := g.gtin, quantity := g.count, price := unitPrice })
  let totalAmount := gtins.foldl (fun acc g => acc + (g.count : ℚ) * unitPrice) 0
  ({ userId := 0, items := [], totalAmount := totalAmount, status := "created" }, items)

/-- `OrderItem.Validate`: nonempty GTIN and positive quantity. -/
def OrderItem.validate (oi : OrderItem) : Option String :=
  if oi.gtin = "" then some "GTIN не может быть пустым"
  else if oi.quantity ≤ 0 then some "количество должно быть положительным числом"
  else none

/-- The item loop of `Order.Validate`: first failing item, if any. -/
def firstItemError : List OrderItem → Option String
  | [] => none
  | it :: rest =>
    match it.validate with
    | some e => some e
    | none => firstItemError rest

/-- `Order.Validate`: positive user id, nonempty item list, valid items,
positive total amount. -/
def Order.validate (o : Order) : Option String :=
  if o.userId ≤ 0 then some "ID пользователя должен быть положительным числом"
  else if o.items = [] then some "заказ должен содержать хотя бы один товар"
  else
    match firstItemError o.items with
    | some e => some e
    | none =>
      if o.totalAmount ≤ 0 then some "сумма заказа должна быть положительным числом"
      else none

/-- `Order.CalculateTotal`: sum of quantity times price over the items with a
positive price. -/
def Order.calculateTotal (o : Order) : ℚ :=
  o.items.foldl (fun acc it => if 0 < it.price then acc + (it.quantity : ℚ) * it.price else acc) 0

/-! ### Shared database helpers of the companion server file -/

/-- The `getUserID` helper: id of the user with the given messaging-platform
id, or 0 when no row matches (`sql.ErrNoRows`). -/
def getUserID (users : List UserRow) (telegramID : Int) : Int :=
  match users.find? (fun u => u.telegramId == telegramID) with
  | none => 0
  | some u => u.id

/-- SERIAL allocation for the `orders` table, modelled as max-plus-one. -/
def nextOrderId (db : DB) : Int :=
  (db.orders.map (fun o => o.id)).foldl max 0 + 1

/-- SERIAL allocation for the `payments` table, modelled as max-plus-one. -/
def nextPaymentId (db : DB) : Int :=
  (db.payments.map (fun p => p.id)).foldl max 0 + 1

/-- SERIAL allocation for the `users` table, modelled as max-plus-one. -/
def nextUserId (users : List UserRow) : Int :=
  (users.map (fun u => u.id)).foldl max 0 + 1

/-! ### Transactional order creation (createOrderTx, handleKIZRequest) -/

/-- `order_items` row produced for one line item of an order. -/
def orderItemRowOf (orderId : Int) (it : OrderItem) : OrderItemRow :=
  { orderId := orderId, gtin := it.gtin, quantity := it.quantity, price := it.price }

/-- The item-insert loop of `createOrderTx`, with an injected failure before
the insert of item number `failAt` (simulating a statement error inside the
transaction); `k` is the index of the next item. -/
def insertItems (tx : DB) (orderId : Int) (items : List OrderItem) (failAt : Option Nat)
    (k : Nat) : Except Unit DB :=
  match items with
  | [] => .ok tx
  | it :: rest =>
    if failAt = some k then .error ()
    else insertItems { tx with orderItems := tx.orderItems ++ [orderItemRowOf orderId it] }
      orderId rest failAt (k + 1)

/-- `createOrderTx`: insert the order header (RETURNING its id), then insert
every item, all against the transaction state `tx`. -/
def createOrderTx (tx : DB) (order : Order) (items : List OrderItem) (failAt : Option Nat) :
    Except Unit (DB × Int) :=
  let oid := nextOrderId tx
  let tx1 := { tx with orders := tx.orders ++
    [{ id := oid, userId := order.userId, totalAmount := order.totalAmount,
       status := order.status }] }
  match insertItems tx1 oid items failAt 0 with
  | .error e => .error e
  | .ok tx2 => .ok (tx2, oid)

/-- Decoded body of the order-plus-codes request handled by
`handleKIZRequest`. -/
structure KizOrderRequest where
  telegramId : Int
  gtins : List GTINData
  inn : String
deriving DecidableEq

/-- Reply of `handleKIZRequest`: an error status, or 201 Created with the
order id and the codes obtained (possibly none). -/
inductive KizOrderResp where
  | err (status : Nat) (msg : String)
  | created (orderId : Int) (kizs : List String)
deriving DecidableEq

/-- The `handleKIZRequest` endpoint: find the user, build the order inside a
transaction (rolled back on failure), commit, and only then perform the
external code-retrieval call, whose outcome `ext` can no longer change the
database; on external failure the committed order id is still returned with
no codes. -/
def handleKIZRequest (db : DB) (req : KizOrderRequest) (failAt : Option Nat)
    (ext : Except Unit (List String)) : KizOrderResp × DB :=
  let userID := getUserID db.users req.telegramId
  if userID = 0 then (.err 401 "Пользователь не найден", db)
  else
    let op := prepareOrder req.telegramId req.gtins
    let order := { op.fst with userId := userID }
    match createOrderTx db order op.snd failAt with
    | .error _ => (.err 500 "Ошибка создания заказа", db)
    | .ok (tx2, oid) =>
      let kizs := match ext with
        | .ok ks => ks
        | .error _ => []
      (.created oid kizs, tx2)

/-! ### KIZ request endpoint of the main server file (kizHandler) -/

/-- Decoded body of the `/api/kizs` request. -/
structure KIZRequest where
  telegramId : Int
  gtins : List String
  inn : String
deriving DecidableEq

/-- JSON reply of `kizHandler`. -/
structure KIZResp where
  status : Nat
  message : String
  kizs : List String
  filePath : String
deriving DecidableEq

/-- The `kizHandler` endpoint: validation of the three required fields, the
stubbed code list, the `kiz_requests` insert, and PDF generation whose
outcome is the parameter `pdf`. -/
def kizHandler (db : DB) (req : KIZRequest) (now : Nat) (pdf : Except Unit String) :
    KIZResp × DB :=
  if req.telegramId ≤ 0 ∨ req.gtins = [] ∨ req.inn = "" then
    ({ status := 400, message := "Отсутствуют обязательные параметры",
       kizs := [], filePath := "" }, db)
  else
    let kizs := ["KIZ123456", "KIZ789012"]
    let db1 := { db with kizRequests := db.kizRequests ++
      [{ telegramId := req.telegramId, inn := req.inn, requestTime := now }] }
    match pdf with
    | .error _ =>
      ({ status := 500, message := "Ошибка генерации PDF", kizs := [], filePath := "" }, db1)
    | .ok filename =>
      ({ status := 200, message := "КИЗы успешно сгенерированы",
         kizs := kizs, filePath := filename }, db1)

/-! ### User registration (registerUserHandler) -/

/-- Decoded body of the registration request. -/
structure RegRequest where
  telegramId : Int
  inn : String
  email : String
deriving DecidableEq

/-- Reply of `registerUserHandler`. -/
inductive RegisterResp where
  | badRequest
  | ok (userId : Int) (apiKey : String)
deriving DecidableEq

/-- The `registerUserHandler` endpoint: validate the required fields, then
upsert by messaging-platform id — update the mutable fields and the API key
of an existing row (RETURNING its id), or insert a new row; `apiKey` is the
freshly generated random key. -/
def registerUserHandler (users : List UserRow) (req : RegRequest) (apiKey : String)
    (now : Nat) : RegisterResp × List UserRow :=
  if req.telegramId ≤ 0 ∨ req.inn = "" then (.badRequest, users)
  else if users.any (fun u => u.telegramId == req.telegramId) then
    let userId := match users.find? (fun u => u.telegramId == req.telegramId) with
      | some u => u.id
      | none => 0
    (.ok userId apiKey,
     users.map (fun u =>
       if u.telegramId == req.telegramId then
         { u with inn := req.inn, email := req.email, lastActive := now, apiKey := apiKey }
       else u))
  else
    let userId := nextUserId users
    (.ok userId apiKey,
     users ++ [{ id := userId, telegramId := req.telegramId, inn := req.inn,
                 email := req.email, apiKey := apiKey, lastActive := now }])

/-! ### Payment creation (handlePayment, generatePaymentURL) -/

/-- Decoded body of the payment request handled by `handlePayment`. -/
structure PayRequest where
  telegramId : Int
  amount : ℚ
  orderId : Int
deriving DecidableEq

/-- Reply of `handlePayment`: 401 for an unknown user, the 500 creation
failure, or success with the payment id and redirect URL. -/
inductive PayResult where
  | unauthorized
  | creationFailed
  | ok (paymentId : Int) (paymentURL : String)
deriving DecidableEq

/-- Scan of a nullable SQL text column into a non-nullable Go `string`:
`database/sql` refuses to convert NULL into `string`, so a NULL value makes
`Scan` return an error. -/
def scanStringNotNull : Option String → Except Unit String
  | none => .error ()
  | some s => .ok s

/-- The `generatePaymentURL` stub of the companion server file. -/
def generatePaymentURL (paymentID : Int) (amount : ℚ) : String :=
  "https://auth.robokassa.ru/Merchant/Index.aspx?MerchantLogin=test&OutSum=" ++ fmtG amount ++
  "&InvId=" ++ toString paymentID ++ "&SignatureValue=test"

/-- The `handlePayment` endpoint: look the requesting user up by
messaging-platform id (401 when absent), then
`INSERT INTO payments (order_id, amount, status) ... RETURNING id,
transaction_id, created_at` scanned into `models.Payment`. The insert never
supplies `transaction_id` and the column has no default, so the returned
value is NULL, and scanning it into the plain Go string
`payment.TransactionID` errors on every execution; the handler then rolls
the transaction back and answers the 500 creation failure, so the inserted
row (and the success branch building the redirect URL) is never committed. -/
def handlePayment (db : DB) (req : PayRequest) : PayResult × DB :=
  let userID := getUserID db.users req.telegramId
  if userID = 0 then (.unauthorized, db)
  else
    let paymentID := nextPaymentId db
    let row : PaymentRow := { id := paymentID, orderId := req.orderId, amount := req.amount,
                              status := "pending", transactionId := none, completedAt := none }
    match scanStringNotNull row.transactionId with
    | .error _ => (.creationFailed, db)
    | .ok _ =>
      (.ok paymentID (generatePaymentURL paymentID req.amount),
       { db with payments := db.payments ++ [row] })

/-! ### Authentication middleware (authMiddleware) -/

/-- Outcome of the middleware: reject with 401, or forward to the inner
handler, optionally with the authenticated user id in the request context. -/
inductive AuthOutcome where
  | reject401
  | forward (ctxUserId : Option Int)
deriving DecidableEq

/-- The public paths exempt from authentication. -/
def publicPaths : List String :=
  ["/health", "/api/users/register", "/api/payments/callback", "/docs/"]

/-- Character-level test that the first list starts the second. -/
def isPrefixOfChars : List Char → List Char → Bool
  | [], _ => true
  | _ :: _, [] => false
  | a :: as, b :: bs => a == b && isPrefixOfChars as bs

/-- Membership in the public-path set, including the `/docs/` subtree. -/
def isPublicPath (path : String) : Bool :=
  publicPaths.contains path || isPrefixOfChars "/docs/".data path.data

/-- The `authMiddleware`: public paths pass through; an absent or empty
X-API-Key header passes through without any check; a nonempty key is looked
up among the stored api keys — no match means 401, a match updates the
last-activity timestamp and forwards with the user id in the context. -/
def authMiddleware (users : List UserRow) (path : String) (apiKey : String) (now : Nat) :
    AuthOutcome × List UserRow :=
  if isPublicPath path then (.forward none, users)
  else if apiKey = "" then (.forward none, users)
  else
    match users.find? (fun u => u.apiKey == apiKey) with
    | none => (.reject401, users)
    | some u =>
      (.forward (some u.id),
       users.map (fun v => if v.id == u.id then { v with lastActive := now } else v))

/-! ### General lemmas -/

theorem list_map_id_of {α : Type} (l : List α) (f : α → α) (h : ∀ a ∈ l, f a = a) :
    l.map f = l := by
  induction l with
  | nil => rfl
  | cons x xs ih =>
    simp only [List.map_cons]
    rw [h x (List.mem_cons_self x xs), ih (fun a ha => h a (List.mem_cons_of_mem x ha))]

theorem list_filter_nil_of {α : Type} (l : List α) (p : α → Bool) (h : ∀ a ∈ l, p a = false) :
    l.filter p = [] := by
  induction l with
  | nil => rfl
  | cons x xs ih =>
    rw [List.filter_cons, if_neg (by simp [h x (List.mem_cons_self x xs)])]
    exact ih fun a ha => h a (List.mem_cons_of_mem x ha)

theorem list_any_false_of {α : Type} (p : α → Bool) (l : List α) (h : ∀ a ∈ l, p a = false) :
    l.any p = false := by
  induction l with
  | nil => rfl
  | cons x xs ih =>
    simp only [List.any_cons, h x (List.mem_cons_self x xs), Bool.false_or]
    exact ih fun a ha => h a (List.mem_cons_of_mem x ha)

theorem list_find_append_none {α : Type} (p : α → Bool) (l1 l2 : List α)
    (h : ∀ a ∈ l1, p a = false) : (l1 ++ l2).find? p = l2.find? p := by
  induction l1 with
  | nil => rfl
  | cons x xs ih =>
    rw [List.cons_append, List.find?_cons_of_neg _ (by simp [h x (List.mem_cons_self x xs)])]
    exact ih fun a ha => h a (List.mem_cons_of_mem x ha)

theorem bytesToHex_sha1Digest_ne_empty (st : Nat × Nat × Nat × Nat × Nat) :
    bytesToHex (sha1Digest st) ≠ "" := by
  obtain ⟨a, b, c, d, e⟩ := st
  simp [sha1Digest, be4, bytesToHex, String.ext_iff]

theorem sha1Hex_ne_empty (s : String) : sha1Hex s ≠ "" :=
  bytesToHex_sha1Digest_ne_empty _

/-- Known-answer test pinning the SHA-1 model to the real function. -/
theorem sha1Hex_abc : sha1Hex "abc" = "a9993e364706816aba3e25717850c26c9cd0d89d" := by decide

/-! ### C4 -/

/-- C4: payment creation deterministically computes the signature as the hex
SHA-1 digest of merchantLogin:amount:id:password and returns the Robokassa
redirect URL carrying MerchantLogin, OutSum with the identical amount
formatting, InvId and SignatureValue. -/
theorem c4_payment_link_form (rk : PaymentConfig) (amount : ℚ) (paymentID : Int) :
    (createPaymentLink rk amount paymentID).fst =
      sha1Hex (rk.robokassaLogin ++ ":" ++ fmtG amount ++ ":" ++ toString paymentID ++ ":" ++
        rk.robokassaPass)
    ∧ (createPaymentLink rk amount paymentID).snd =
      "https://auth.robokassa.ru/Merchant/Index.aspx?MerchantLogin=" ++ rk.robokassaLogin ++
      "&OutSum=" ++ fmtG amount ++ "&InvId=" ++ toString paymentID ++
      "&SignatureValue=" ++ (createPaymentLink rk amount paymentID).fst ++
      "&Desc=Оплата услуг&Culture=ru" :=
  ⟨rfl, rfl⟩

/-! ### C1 -/

/-- C1 (amended): a callback whose three parameters are all nonempty and
whose SignatureValue differs from the expected digest is answered 403 with
the invalid-signature message and no database row changes; a callback with a
missing parameter is answered 400, likewise without any change. -/
theorem c1_forged_callback (rk : PaymentConfig) (db : DB) (form : CallbackForm) (now : Nat)
    (hm : form.signatureValue ≠ sha1Hex (rk.robokassaLogin ++ ":" ++ form.outSum ++ ":" ++
      form.invId ++ ":" ++ rk.robokassaPass)) :
    ((form.invId ≠ "" ∧ form.outSum ≠ "" ∧ form.signatureValue ≠ "") →
      robokassaCallbackHandler rk db form now =
        ({ status := 403, body := "Неверная подпись" }, db))
    ∧ ((form.invId = "" ∨ form.outSum = "" ∨ form.signatureValue = "") →
      robokassaCallbackHandler rk db form now =
        ({ status := 400, body := "Неверные параметры" }, db)) := by
  constructor
  · rintro ⟨h1, h2, h3⟩
    simp only [robokassaCallbackHandler]
    rw [if_neg (by simp [h1, h2, h3]), if_pos hm]
  · intro h
    simp only [robokassaCallbackHandler]
    rw [if_pos h]

/-- C1 counterexample: a callback carrying an empty SignatureValue never
matches the expected digest, yet the handler answers it with 400, not with
the 403 invalid-signature rejection the claim requires for every mismatch. -/
theorem c1_counterexample :
    (("" : String) ≠ sha1Hex ("login" ++ ":" ++ "100" ++ ":" ++ "1" ++ ":" ++ "pass"))
    ∧ (robokassaCallbackHandler { robokassaLogin := "login", robokassaPass := "pass" }
        { users := [], orders := [], orderItems := [], payments := [], kizRequests := [] }
        { invId := "1", outSum := "100", signatureValue := "", shpTransactionId := "" }
        0).fst.status = 400
    ∧ ¬ (robokassaCallbackHandler { robokassaLogin := "login", robokassaPass := "pass" }
        { users := [], orders := [], orderItems := [], payments := [], kizRequests := [] }
        { invId := "1", outSum := "100", signatureValue := "", shpTransactionId := "" }
        0).fst.status = 403 :=
  ⟨(sha1Hex_ne_empty _).symm, rfl, by decide⟩

/-- C1 witness: the amended theorem applied to a concrete forged callback
with all parameters present. -/
theorem c1_forged_callback_witness :
    robokassaCallbackHandler { robokassaLogin := "login", robokassaPass := "pass" }
      { users := [], orders := [], orderItems := [], payments := [], kizRequests := [] }
      { invId := "1", outSum := "100", signatureValue := "f", shpTransactionId := "" } 0 =
      ({ status := 403, body := "Неверная подпись" },
       { users := [], orders := [], orderItems := [], payments := [], kizRequests := [] }) :=
  (c1_forged_callback _ _ _ _ (by decide)).1 (by decide)

/-! ### C9 -/

theorem firstItemError_ne_none (l : List OrderItem) (h : ∃ it ∈ l, it.quantity ≤ 0) :
    firstItemError l ≠ none := by
  induction l with
  | nil =>
    obtain ⟨it, hmem, _⟩ := h
    exact absurd hmem (List.not_mem_nil it)
  | cons x xs ih =>
    simp only [firstItemError]
    cases hv : OrderItem.validate x with
    | some e => simp
    | none =>
      obtain ⟨it, hmem, hq⟩ := h
      rcases List.mem_cons.1 hmem with rfl | hmem2
      · exfalso
        simp only [OrderItem.validate] at hv
        by_cases hg : it.gtin = ""
        · simp [hg] at hv
        · simp [hg, hq] at hv
      · exact ih ⟨it, hmem2, hq⟩

/-- C9: order validation returns an error for every order whose item list is
empty or which contains an item of nonpositive quantity, and the KIZ request
endpoint answers an empty product list with a 400 validation failure while
persisting nothing. -/
theorem c9_validation_rejects (o : Order) (db : DB) (req : KIZRequest) (now : Nat)
    (pdf : Except Unit String)
    (h : o.items = [] ∨ ∃ it ∈ o.items, it.quantity ≤ 0)
    (hg : req.gtins = []) :
    Order.validate o ≠ none
    ∧ kizHandler db req now pdf =
        ({ status := 400, message := "Отсутствуют обязательные параметры",
           kizs := [], filePath := "" }, db) := by
  constructor
  · simp only [Order.validate]
    by_cases hu : o.userId ≤ 0
    · simp [hu]
    · rw [if_neg hu]
      rcases h with hempty | hq
      · simp [hempty]
      · have hne : o.items ≠ [] := by
          intro hemp
          obtain ⟨it, hm, _⟩ := hq
          rw [hemp] at hm
          exact (List.not_mem_nil it) hm
        rw [if_neg hne]
        cases hfe : firstItemError o.items with
        | some e => simp
        | none => exact absurd hfe (firstItemError_ne_none o.items hq)
  · simp only [kizHandler]
    rw [if_pos (Or.inr (Or.inl hg))]

/-- C9 witness: the theorem applied to a concrete order with a zero-quantity
item and a concrete empty-list KIZ request. -/
theorem c9_validation_rejects_witness :
    Order.validate { userId := 1,
                     items := [{ gtin := "04602380040001", quantity := 0, price := 100 }],
                     totalAmount := 0, status := "created" } ≠ none
    ∧ kizHandler { users := [], orders := [], orderItems := [], payments := [], kizRequests := [] }
        { telegramId := 5, gtins := [], inn := "7707083893" } 0 (.ok "f.pdf") =
        ({ status := 400, message := "Отсутствуют обязательные параметры",
           kizs := [], filePath := "" },
         { users := [], orders := [], orderItems := [], payments := [], kizRequests := [] }) :=
  c9_validation_rejects _ _ _ _ _ (Or.inr (by decide)) rfl

/-! ### C10 -/

/-- C10: on a non-public path the middleware answers 401 exactly when the
request carries a nonempty X-API-Key matching no stored api key, and a
request without an X-API-Key header is forwarded untouched, with no
authentication performed. -/
theorem c10_auth_middleware (users : List UserRow) (path apiKey : String) (now : Nat)
    (hpub : isPublicPath path = false) :
    ((authMiddleware users path apiKey now).fst = .reject401 ↔
      (apiKey ≠ "" ∧ ∀ u ∈ users, u.apiKey ≠ apiKey))
    ∧ (apiKey = "" → authMiddleware users path apiKey now = (.forward none, users)) := by
  by_cases hk : apiKey = ""
  · constructor
    · rw [show (authMiddleware users path apiKey now).fst = .forward none from by
        simp [authMiddleware, hpub, hk]]
      simp [hk]
    · intro _
      simp [authMiddleware, hpub, hk]
  · refine ⟨?_, fun he => absurd he hk⟩
    cases hf : users.find? (fun u => u.apiKey == apiKey) with
    | none =>
      rw [show (authMiddleware users path apiKey now).fst = .reject401 from by
        simp [authMiddleware, hpub, hk, hf]]
      refine ⟨fun _ => ⟨hk, fun u hu => ?_⟩, fun _ => rfl⟩
      have := List.find?_eq_none.1 hf u hu
      simpa using this
    | some u =>
      rw [show (authMiddleware users path apiKey now).fst = .forward (some u.id) from by
        simp [authMiddleware, hpub, hk, hf]]
      constructor
      · intro hcontra
        exact absurd hcontra (by simp)
      · rintro ⟨-, hall⟩
        have hmem := List.mem_of_find?_eq_some hf
        have hpu := List.find?_some hf
        exact absurd (by simpa using hpu) (hall u hmem)

/-- C10 witness: the theorem applied to a concrete non-public path, both for
a wrong nonempty key and for the absent-header case. -/
theorem c10_auth_middleware_witness :
    ((authMiddleware [{ id := 1, telegramId := 10, inn := "7707083893", email := "",
                        apiKey := "secret", lastActive := 0 }] "/api/kizs" "wrong" 0).fst
        = .reject401 ↔
      (("wrong" : String) ≠ "" ∧
       ∀ u ∈ [({ id := 1, telegramId := 10, inn := "7707083893", email := "",
                 apiKey := "secret", lastActive := 0 } : UserRow)], u.apiKey ≠ "wrong"))
    ∧ (("wrong" : String) = "" →
      authMiddleware [{ id := 1, telegramId := 10, inn := "7707083893", email := "",
                        apiKey := "secret", lastActive := 0 }] "/api/kizs" "wrong" 0 =
        (.forward none,
         [{ id := 1, telegramId := 10, inn := "7707083893", email := "",
            apiKey := "secret", lastActive := 0 }])) :=
  c10_auth_middleware _ _ _ _ (by decide)

/-! ### C3 -/

theorem foldl_add_map_sum (f : GTINData → ℚ) (l : List GTINData) : ∀ acc : ℚ,
    l.foldl (fun a g => a + f g) acc = acc + (l.map f).sum := by
  induction l with
  | nil => intro acc; simp
  | cons x xs ih =>
    intro acc
    rw [List.foldl_cons, ih, List.map_cons, List.sum_cons, add_assoc]

theorem foldl_calc_pos (l : List OrderItem) : (∀ it ∈ l, 0 < it.price) → ∀ acc : ℚ,
    l.foldl (fun a it => if 0 < it.price then a + (it.quantity : ℚ) * it.price else a) acc
      = acc + (l.map (fun it => (it.quantity : ℚ) * it.price)).sum := by
  induction l with
  | nil => intro _ acc; simp
  | cons x xs ih =>
    intro h acc
    rw [List.foldl_cons, if_pos (h x (List.mem_cons_self x xs)), List.map_cons, List.sum_cons,
      ih (fun it hit => h it (List.mem_cons_of_mem x hit)), add_assoc]

/-- C3: the assembled order carries total_amount equal to the sum over its
items of quantity times unit price (also as computed by CalculateTotal) and
status created; in particular a single item of quantity 2 at unit price
100.0 yields total 200.0. -/
theorem c3_total_amount (telegramID : Int) (gtins : List GTINData) :
    ((prepareOrder telegramID gtins).fst.totalAmount =
      (((prepareOrder telegramID gtins).snd).map (fun it => (it.quantity : ℚ) * it.price)).sum)
    ∧ ((prepareOrder telegramID gtins).fst.totalAmount =
      Order.calculateTotal { userId := 0, items := (prepareOrder telegramID gtins).snd,
                             totalAmount := 0, status := "created" })
    ∧ (prepareOrder telegramID gtins).fst.status = "created"
    ∧ (prepareOrder 123456789 [{ gtin := "04602380040001", count := 2 }]).fst.totalAmount = 200
    ∧ (prepareOrder 123456789 [{ gtin := "04602380040001", count := 2 }]).fst.status = "created" := by
  have hsum : (prepareOrder telegramID gtins).fst.totalAmount =
      (((prepareOrder telegramID gtins).snd).map (fun it => (it.quantity : ℚ) * it.price)).sum := by
    simp only [prepareOrder]
    rw [foldl_add_map_sum (fun g => (g.count : ℚ) * 100), List.map_map]
    have hfun : ((fun it => (it.quantity : ℚ) * it.price) ∘
        (fun g => ({ gtin := g.gtin, quantity := g.count, price := 100 } : OrderItem))) =
        (fun g : GTINData => (g.count : ℚ) * 100) := by
      funext g
      rfl
    rw [hfun]
    simp
  refine ⟨hsum, ?_, rfl, ?_, rfl⟩
  · have hpos : ∀ it ∈ (prepareOrder telegramID gtins).snd, (0 : ℚ) < it.price := by
      intro it hit
      simp only [prepareOrder] at hit
      obtain ⟨g, _, rfl⟩ := List.mem_map.1 hit
      norm_num
    rw [hsum, Order.calculateTotal]
    rw [foldl_calc_pos _ hpos 0, zero_add]
  · simp only [prepareOrder, List.foldl_cons, List.foldl_nil]
    norm_num

/-! ### C6 -/

/-- C6: registering twice with the same messaging-platform id returns the
same internal user id both times; the first call inserts a row, the second
updates the existing row in place (no new row) and stores the fresh access
token, which differs from the first one. -/
theorem c6_register_upsert (users : List UserRow) (req : RegRequest) (k1 k2 : String)
    (t1 t2 : Nat)
    (htg : 0 < req.telegramId) (hinn : req.inn ≠ "")
    (habs : ∀ u ∈ users, u.telegramId ≠ req.telegramId)
    (hk : k1 ≠ k2) :
    ∃ uid,
      (registerUserHandler users req k1 t1).fst = .ok uid k1
      ∧ (registerUserHandler ((registerUserHandler users req k1 t1).snd) req k2 t2).fst =
          .ok uid k2
      ∧ k2 ≠ k1
      ∧ (∀ u ∈ (registerUserHandler ((registerUserHandler users req k1 t1).snd) req k2 t2).snd,
          u.telegramId = req.telegramId → u.apiKey = k2)
      ∧ ((registerUserHandler ((registerUserHandler users req k1 t1).snd) req k2 t2).snd).length
          = ((registerUserHandler users req k1 t1).snd).length := by
  have hval : ¬(req.telegramId ≤ 0 ∨ req.inn = "") := by
    push_neg
    exact ⟨by omega, hinn⟩
  have hfalse : ∀ u ∈ users, (u.telegramId == req.telegramId) = false := by
    intro u hu
    simp [habs u hu]
  have hany : users.any (fun u => u.telegramId == req.telegramId) = false :=
    list_any_false_of _ _ hfalse
  have h1 : registerUserHandler users req k1 t1 =
      (.ok (nextUserId users) k1,
       users ++ [{ id := nextUserId users, telegramId := req.telegramId, inn := req.inn,
                   email := req.email, apiKey := k1, lastActive := t1 }]) := by
    simp only [registerUserHandler, hany]
    rw [if_neg hval]
    simp
  set newRow : UserRow := { id := nextUserId users, telegramId := req.telegramId,
                            inn := req.inn, email := req.email, apiKey := k1,
                            lastActive := t1 } with hrow
  have hany2 : (users ++ [newRow]).any (fun u => u.telegramId == req.telegramId) = true := by
    rw [List.any_append]
    simp [hrow]
  have hfind : (users ++ [newRow]).find? (fun u => u.telegramId == req.telegramId) =
      some newRow := by
    rw [list_find_append_none _ _ _ hfalse]
    simp [List.find?, hrow]
  have h2 : registerUserHandler (users ++ [newRow]) req k2 t2 =
      (.ok (nextUserId users) k2,
       (users ++ [newRow]).map (fun u =>
         if u.telegramId == req.telegramId then
           { u with inn := req.inn, email := req.email, lastActive := t2, apiKey := k2 }
         else u)) := by
    simp only [registerUserHandler, hany2, hfind]
    rw [if_neg hval]
    simp [hrow]
  refine ⟨nextUserId users, ?_, ?_, hk.symm, ?_, ?_⟩
  · rw [h1]
  · rw [h1, h2]
  · rw [h1]
    simp only
    rw [h2]
    simp only
    intro u hu htid
    obtain ⟨v, hv, hfv⟩ := List.mem_map.1 hu
    by_cases hc : (v.telegramId == req.telegramId) = true
    · rw [if_pos hc] at hfv
      rw [← hfv]
    · rw [if_neg hc] at hfv
      subst hfv
      exact absurd (by simp [htid]) hc
  · rw [h1, h2]
    simp [List.length_map]

/-! ### C7 -/

/-- Concrete database for the payment-ownership claims: user 1 owns order 5,
user 2 owns nothing. -/
def c7db : DB :=
  { users := [{ id := 1, telegramId := 10, inn := "1", email := "", apiKey := "", lastActive := 0 },
              { id := 2, telegramId := 20, inn := "2", email := "", apiKey := "", lastActive := 0 }],
    orders := [{ id := 5, userId := 1, totalAmount := 200, status := "created" }],
    orderItems := [], payments := [], kizRequests := [] }

/-- Concrete payment request of user 2 referencing order 5, owned by user 1. -/
def c7req : PayRequest := { telegramId := 20, amount := 100, orderId := 5 }

/-- Concrete payment request of user 1, the owner of order 5. -/
def c7ownReq : PayRequest := { telegramId := 10, amount := 100, orderId := 5 }

/-- C7 counterexample: payment creation does not implement the claimed
validate-ownership-then-persist flow. Even the owner of the referenced
order receives the 500 creation failure with no Payment row persisted (the
Scan of the NULL transaction_id fails before the transaction can commit),
and the non-owner request is answered identically — not by any ownership
check. -/
theorem c7_counterexample :
    getUserID c7db.users c7ownReq.telegramId = 1
    ∧ (∀ o ∈ c7db.orders, o.id = c7ownReq.orderId → o.userId = 1)
    ∧ handlePayment c7db c7ownReq = (.creationFailed, c7db)
    ∧ handlePayment c7db c7req = (.creationFailed, c7db) := by
  refine ⟨by decide, by decide, by decide, by decide⟩

/-- C7 (amended): payment creation checks only that a user with the given
messaging-platform id exists and never persists any Payment row: the Scan
of the always-NULL transaction_id into a non-nullable Go string fails on
every execution, so every request from a registered user — owner of the
referenced order or not — is answered with the 500 creation failure, every
request from an unknown user with 401, and the database is unchanged in all
cases; in particular every request referencing a non-owned order is
rejected with no Payment row created. -/
theorem c7_no_payment_persisted (db : DB) (req : PayRequest) :
    handlePayment db req =
      ((if getUserID db.users req.telegramId = 0 then PayResult.unauthorized
        else PayResult.creationFailed), db) := by
  simp only [handlePayment]
  by_cases h : getUserID db.users req.telegramId = 0
  · rw [if_pos h, if_pos h]
  · rw [if_neg h, if_neg h]
    rfl

/-- C6 witness: the theorem applied to the concrete registration of telegram
id 123456789 with tax id 7707083893, performed twice with two distinct
generated keys. -/
theorem c6_register_upsert_witness :
    ∃ uid,
      (registerUserHandler [] { telegramId := 123456789, inn := "7707083893", email := "" }
          "key1" 0).fst = .ok uid "key1"
      ∧ (registerUserHandler
          ((registerUserHandler [] { telegramId := 123456789, inn := "7707083893", email := "" }
              "key1" 0).snd)
          { telegramId := 123456789, inn := "7707083893", email := "" } "key2" 1).fst =
          .ok uid "key2"
      ∧ ("key2" : String) ≠ "key1"
      ∧ (∀ u ∈ (registerUserHandler
          ((registerUserHandler [] { telegramId := 123456789, inn := "7707083893", email := "" }
              "key1" 0).snd)
          { telegramId := 123456789, inn := "7707083893", email := "" } "key2" 1).snd,
          u.telegramId = ({ telegramId := 123456789, inn := "7707083893",
                            email := "" } : RegRequest).telegramId → u.apiKey = "key2")
      ∧ ((registerUserHandler
          ((registerUserHandler [] { telegramId := 123456789, inn := "7707083893", email := "" }
              "key1" 0).snd)
          { telegramId := 123456789, inn := "7707083893", email := "" } "key2" 1).snd).length
          = ((registerUserHandler [] { telegramId := 123456789, inn := "7707083893",
                                       email := "" } "key1" 0).snd).length :=
  c6_register_upsert [] { telegramId := 123456789, inn := "7707083893", email := "" }
    "key1" "key2" 0 1 (by decide) (by decide) (by decide) (by decide)

/-! ### C5 and C8 -/

theorem insertItems_none_ok (orderId : Int) (items : List OrderItem) : ∀ (tx : DB) (k : Nat),
    insertItems tx orderId items none k =
      .ok { tx with orderItems := tx.orderItems ++ items.map (orderItemRowOf orderId) } := by
  induction items with
  | nil =>
    intro tx k
    simp [insertItems]
  | cons it rest ih =>
    intro tx k
    rw [insertItems, if_neg (by simp)]
    rw [ih]
    simp [List.append_assoc]

theorem insertItems_fail (orderId : Int) (i : Nat) : ∀ (items : List OrderItem) (tx : DB)
    (k : Nat), k ≤ i → i - k < items.length →
    insertItems tx orderId items (some i) k = .error () := by
  intro items
  induction items with
  | nil =>
    intro tx k _ hlen
    simp at hlen
  | cons it rest ih =>
    intro tx k hk hlen
    by_cases hki : k = i
    · subst hki
      rw [insertItems, if_pos rfl]
    · rw [insertItems, if_neg (by simp [Ne.symm hki])]
      exact ih _ (k + 1) (by omega) (by simp at hlen; omega)

theorem createOrderTx_none_ok (tx : DB) (order : Order) (items : List OrderItem) :
    createOrderTx tx order items none =
      .ok ({ tx with
             orders := tx.orders ++ [{ id := nextOrderId tx, userId := order.userId,
                                       totalAmount := order.totalAmount,
                                       status := order.status }],
             orderItems := tx.orderItems ++ items.map (orderItemRowOf (nextOrderId tx)) },
        nextOrderId tx) := by
  simp only [createOrderTx]
  rw [insertItems_none_ok]

theorem createOrderTx_fail (tx : DB) (order : Order) (items : List OrderItem) (i : Nat)
    (h : i < items.length) :
    createOrderTx tx order items (some i) = .error () := by
  simp only [createOrderTx]
  rw [insertItems_fail _ _ _ _ _ (Nat.zero_le i) (by simpa using h)]

/-- C5: when any item insert fails after the order header was inserted but
before the transaction committed, the transaction is rolled back: the
handler answers with an error and the database is exactly as before — zero
new orders and zero new order items. -/
theorem c5_order_creation_atomic (db : DB) (req : KizOrderRequest) (i : Nat)
    (ext : Except Unit (List String))
    (huser : getUserID db.users req.telegramId ≠ 0)
    (hfail : i < req.gtins.length) :
    handleKIZRequest db req (some i) ext = (.err 500 "Ошибка создания заказа", db) := by
  simp only [handleKIZRequest]
  rw [if_neg huser, createOrderTx_fail]
  simp only [prepareOrder, List.length_map]
  exact hfail

/-- C5 witness: the theorem applied to a concrete database with one user and
a one-item order whose single item insert fails. -/
theorem c5_order_creation_atomic_witness :
    handleKIZRequest
      { users := [{ id := 1, telegramId := 5, inn := "7707083893", email := "",
                    apiKey := "", lastActive := 0 }],
        orders := [], orderItems := [], payments := [], kizRequests := [] }
      { telegramId := 5, gtins := [{ gtin := "04602380040001", count := 2 }],
        inn := "7707083893" }
      (some 0) (.ok []) =
      (.err 500 "Ошибка создания заказа",
       { users := [{ id := 1, telegramId := 5, inn := "7707083893", email := "",
                     apiKey := "", lastActive := 0 }],
         orders := [], orderItems := [], payments := [], kizRequests := [] }) :=
  c5_order_creation_atomic _ _ _ _ (by decide) (by decide)

/-- C8: on the successful path the transaction is committed before the
external code-retrieval call begins — the committed database state does not
depend on the external outcome — and an external failure after the commit
leaves the order in place while the handler still answers with the created
order id, merely without codes. -/
theorem c8_commit_before_external (db : DB) (req : KizOrderRequest)
    (ext : Except Unit (List String))
    (huser : getUserID db.users req.telegramId ≠ 0) :
    ((handleKIZRequest db req none ext).snd =
      { db with
        orders := db.orders ++ [{ id := nextOrderId db,
                                  userId := getUserID db.users req.telegramId,
                                  totalAmount :=
                                    (prepareOrder req.telegramId req.gtins).fst.totalAmount,
                                  status := "created" }],
        orderItems := db.orderItems ++
          ((prepareOrder req.telegramId req.gtins).snd).map (orderItemRowOf (nextOrderId db)) })
    ∧ (handleKIZRequest db req none ext).snd = (handleKIZRequest db req none (.error ())).snd
    ∧ (∀ ks, ext = .ok ks →
        (handleKIZRequest db req none ext).fst = .created (nextOrderId db) ks)
    ∧ (ext = .error () →
        (handleKIZRequest db req none ext).fst = .created (nextOrderId db) []) := by
  have hmain : ∀ e : Except Unit (List String), handleKIZRequest db req none e =
      (.created (nextOrderId db) (match e with | .ok ks => ks | .error _ => []),
       { db with
         orders := db.orders ++ [{ id := nextOrderId db,
                                   userId := getUserID db.users req.telegramId,
                                   totalAmount :=
                                     (prepareOrder req.telegramId req.gtins).fst.totalAmount,
                                   status := "created" }],
         orderItems := db.orderItems ++
           ((prepareOrder req.telegramId req.gtins).snd).map
             (orderItemRowOf (nextOrderId db)) }) := by
    intro e
    simp only [handleKIZRequest]
    rw [if_neg huser, createOrderTx_none_ok]
    simp [prepareOrder]
  refine ⟨?_, ?_, ?_, ?_⟩
  · rw [hmain ext]
  · rw [hmain ext, hmain (.error ())]
  · intro ks hks
    subst hks
    rw [hmain (.ok ks)]
  · intro hks
    subst hks
    rw [hmain (.error ())]

/-- C8 witness: the theorem applied to a concrete one-user database and a
failing external call. -/
theorem c8_commit_before_external_witness :
    ((handleKIZRequest
        { users := [{ id := 1, telegramId := 5, inn := "7707083893", email := "",
                      apiKey := "", lastActive := 0 }],
          orders := [], orderItems := [], payments := [], kizRequests := [] }
        { telegramId := 5, gtins := [{ gtin := "04602380040001", count := 2 }],
          inn := "7707083893" } none (.error ())).fst =
      .created (nextOrderId
        { users := [{ id := 1, telegramId := 5, inn := "7707083893", email := "",
                      apiKey := "", lastActive := 0 }],
          orders := [], orderItems := [], payments := [], kizRequests := [] }) []) :=
  (c8_commit_before_external
    { users := [{ id := 1, telegramId := 5, inn := "7707083893", email := "",
                  apiKey := "", lastActive := 0 }],
      orders := [], orderItems := [], payments := [], kizRequests := [] }
    { telegramId := 5, gtins := [{ gtin := "04602380040001", count := 2 }],
      inn := "7707083893" }
    (.error ()) (by decide)).2.2.2 rfl

/-! ### C2 -/

theorem callback_update_always_fails (rk : PaymentConfig) (db : DB) (form : CallbackForm)
    (now : Nat) (pid : Int)
    (hinv : form.invId ≠ "") (hout : form.outSum ≠ "")
    (hparse : atoi form.invId = some pid)
    (hsig : form.signatureValue = sha1Hex (rk.robokassaLogin ++ ":" ++ form.outSum ++ ":" ++
      form.invId ++ ":" ++ rk.robokassaPass)) :
    robokassaCallbackHandler rk db form now =
      ({ status := 500, body := "Ошибка обновления платежа" }, db) := by
  have hne : form.signatureValue ≠ "" := by
    rw [hsig]
    exact sha1Hex_ne_empty _
  have hcols : callbackUpdateColumns.all paymentsColumns.contains = false := by decide
  simp only [robokassaCallbackHandler]
  rw [if_neg (by simp [hinv, hout, hne]), if_neg (not_not_intro hsig), hparse]
  simp [hcols]

/-- Robokassa credentials of the concrete callback scenario. -/
def c2rk : PaymentConfig := { robokassaLogin := "shop", robokassaPass := "pw" }

/-- Concrete database of the callback scenario: payment 1 in status pending
for order 2, order 2 in status pending. -/
def c2db : DB :=
  { users := [],
    orders := [{ id := 2, userId := 7, totalAmount := 200, status := "pending" }],
    orderItems := [],
    payments := [{ id := 1, orderId := 2, amount := 200, status := "pending",
                   transactionId := none, completedAt := none }],
    kizRequests := [] }

/-- Concrete correctly signed callback form for payment 1. -/
def c2form : CallbackForm :=
  { invId := "1", outSum := "200",
    signatureValue := sha1Hex ("shop" ++ ":" ++ "200" ++ ":" ++ "1" ++ ":" ++ "pw"),
    shpTransactionId := "trx42" }

/-- C2 (code bug): the callback handler's UPDATE assigns the column
robokassa_id, which does not exist in the payments table of the only schema
that has an orders table, a payments.order_id column and the
update_order_status_on_payment trigger (DATABASE.sql names the column
transaction_id, and its ALTER ... RENAME COLUMN IF EXISTS repair attempt is
not valid PostgreSQL). The correctly signed callback for pending payment 1
of pending order 2 is therefore answered 500 with both rows untouched: the
claimed completed-payment, paid-order, OK+id behaviour — which the handler
text, the trigger and the spec all describe — is unreachable in the
program. -/
theorem c2_callback_update_fails :
    c2form.signatureValue =
      sha1Hex (c2rk.robokassaLogin ++ ":" ++ c2form.outSum ++ ":" ++ c2form.invId ++ ":" ++
        c2rk.robokassaPass)
    ∧ (∀ p ∈ c2db.payments, p.status = "pending")
    ∧ (∀ o ∈ c2db.orders, o.status = "pending")
    ∧ robokassaCallbackHandler c2rk c2db c2form 3 =
        ({ status := 500, body := "Ошибка обновления платежа" }, c2db) :=
  ⟨rfl, by decide, by decide,
   callback_update_always_fails c2rk c2db c2form 3 1 (by decide) (by decide) (by decide) rfl⟩
